import Mathlib

/-!
Verification of the secure-document envelope pipeline of the
`inshallahameen786/Inshallah` repository, a shallow embedding of
`src/server/services/enhanced-ai.service.ts` (classes `DocumentService` and
`EnhancedDocumentService`).

External library primitives (node `crypto`, `pdf-lib`, `sharp`, `qrcode`) are
modelled symbolically but executably; every modelling decision is recorded in
the doc comment of the corresponding definition.  Randomness draws
(`crypto.randomBytes`) take an explicit seed, and the clock (`Date.now`) is an
explicit parameter, so every definition is a pure function of its inputs.
-/

set_option autoImplicit false

namespace DHADocs

/-- Byte strings are lists of naturals below 256 (the bound is enforced by the
producing functions where it matters). -/
abbrev Bytes := List Nat

/-- Model of `crypto.randomBytes(n)`: a concrete pseudorandom byte string fully
determined by an explicit seed, making every randomness source explicit. -/
def randomBytes (n : Nat) (seed : Nat) : Bytes :=
  (List.range n).map (fun i => (seed * 97 + i * 31 + 5) % 256)

/-- Symbolic model of RSA key material: a key pair is identified by a single
natural number, and the public and private halves of one pair carry the same
identifier.  `crypto.publicEncrypt` tags the message with the pair identifier
of the public key used. -/
def publicEncrypt (publicKey : Nat) (m : Bytes) : Bytes := publicKey :: m

/-- `crypto.privateDecrypt`: succeeds exactly when the ciphertext was produced
under the matching public key.  A wrong key or a corrupted wrapped key makes
node throw, modelled as `none`. -/
def privateDecrypt (privateKey : Nat) (c : Bytes) : Option Bytes :=
  match c with
  | [] => none
  | k :: rest => if k = privateKey then some rest else none

/-- `crypto.privateEncrypt` (signing-style RSA): the output is recoverable with
the matching PUBLIC key via `crypto.publicDecrypt`, so it provides no
confidentiality against anyone holding the public half of the pair. -/
def privateEncrypt (privateKey : Nat) (m : Bytes) : Bytes := privateKey :: m

/-- `crypto.publicDecrypt`: inverse of `privateEncrypt` for the matching pair. -/
def publicDecrypt (publicKey : Nat) (c : Bytes) : Option Bytes :=
  match c with
  | [] => none
  | k :: rest => if k = publicKey then some rest else none

/-- Key-stream model of the CTR core of AES-256-GCM: a concrete pseudorandom
byte derived from the key, the IV and the stream position. -/
def gcmKeyByte (key iv : Bytes) (i : Nat) : Nat :=
  (key.foldl (fun a b => a * 31 + b) 7 + iv.foldl (fun a b => a * 37 + b) 11 + i * 131) % 256

/-- `createCipheriv('aes-256-gcm', key, iv)` followed by `update`/`final`:
the ciphertext is the plaintext combined bytewise with the key stream. -/
def gcmEncrypt (key iv : Bytes) (pt : Bytes) : Bytes :=
  (List.range pt.length).zipWith (fun i b => (b + gcmKeyByte key iv i) % 256) pt

/-- The plaintext recovered by the GCM stream once authentication has passed. -/
def gcmDecryptStream (key iv : Bytes) (ct : Bytes) : Bytes :=
  (List.range ct.length).zipWith (fun i b => (b + 256 - gcmKeyByte key iv i) % 256) ct

/-- The 16-byte GCM authentication tag over a ciphertext, modelled as a
concrete MAC of key, IV and ciphertext. -/
def gcmTag (key iv ct : Bytes) : Bytes :=
  (List.range 16).map
    (fun i =>
      (key.foldl (fun a b => a * 3 + b) 1 + iv.foldl (fun a b => a * 5 + b) 2 +
          ct.foldl (fun a b => a * 7 + b) 3 + i * 13) % 256)

/-- Node `createDecipheriv('aes-256-gcm', key, iv)` + `update` + `final`.
`tag?` is the value passed to `decipher.setAuthTag`.  Per the node crypto
documentation, when `setAuthTag` was never called, or when the tag does not
authenticate the ciphertext, `decipher.final()` throws and no plaintext is
released; both cases are modelled as `none`. -/
def gcmDecrypt (key iv ct : Bytes) (tag? : Option Bytes) : Option Bytes :=
  match tag? with
  | none => none
  | some t => if t = gcmTag key iv ct then some (gcmDecryptStream key iv ct) else none

/-- SHA-256 modelled as a deterministic 256-bit digest of the input string;
only determinism and the hex encoding matter to the claims. -/
def sha256Num (s : String) : Nat :=
  s.data.foldl (fun a c => (a * 131 + c.toNat + 1) % 2 ^ 256) 5

/-- `crypto.createHash('sha256').update(s).digest('hex')`. -/
def sha256Hex (s : String) : String :=
  String.mk (Nat.toDigits 16 (sha256Num s))

/-- The document request object passed into both services (`data: any` in the
source; the fields are the ones the source reads: `data.idNumber`,
`data.documentType`, `data.documentNumber`, `data.biometrics`). -/
structure DocData where
  idNumber : String
  documentType : String
  documentNumber : String
  biometrics : Option Bytes
deriving DecidableEq, Repr

/-- Model of `JSON.stringify(data)`: an injective textual encoding of the
request fields.  The exact JSON syntax is irrelevant to every claim; what
matters is that signing, QR hashing and blockchain hashing all serialize the
same `data` object with the same function. -/
def dataJson (d : DocData) : String :=
  "idNumber:" ++ d.idNumber ++ ";documentType:" ++ d.documentType ++
    ";documentNumber:" ++ d.documentNumber ++ ";biometrics:" ++ toString d.biometrics

namespace DocumentService

/-- Modelled from the spec: `this.security` comes from
`initializeDocumentSecurity()` in `config/service-integration.js`, which is not
under `src/`.  Per spec section 4.3 it supplies a detached signature over
canonical bytes, determined by the signed text. -/
def securitySign (s : String) : Bytes :=
  s.data.map Char.toNat

/-- Modelled from the spec: the matching `verify` returns `true` exactly when
the signature matches the text it was produced from; it never throws on
malformed input (spec section 4.3). -/
def securityVerify (s : String) (sig : Bytes) : Bool :=
  sig = securitySign s

/-- The text rendered by `generateMicroprint`
(`RSA DHA ${data.documentNumber} ${Date.now()}`).  The `sharp` rasteriser that
turns this text into an image buffer is an external library; the payload is
modelled by the text, which fully determines the sharp input. -/
def generateMicroprintText (data : DocData) (now : Nat) : String :=
  "RSA DHA " ++ data.documentNumber ++ " " ++ toString now

/-- The security-feature bundle built by `addSecurityFeatures`.  `hologram`
keeps the 32 random bytes (the source additionally base64-encodes them with
`forge.util.encode64`, an injective transport encoding omitted here). -/
structure DSFeatures where
  hologram : Bytes
  microprint : String
  uvFeatures : Bytes
  securityThread : Bytes
deriving DecidableEq, Repr

/-- `DocumentService.addSecurityFeatures`: hologram is `randomBytes(32)`, the
UV features `randomBytes(64)`, the security thread `randomBytes(48)`; each
draw's seed is explicit. -/
def addSecurityFeatures (data : DocData) (hologramSeed uvSeed threadSeed now : Nat) : DSFeatures :=
  { hologram := randomBytes 32 hologramSeed
    microprint := generateMicroprintText data now
    uvFeatures := randomBytes 64 uvSeed
    securityThread := randomBytes 48 threadSeed }

/-- The QR verification payload built by `generateVerificationQR`:
`docType: data.documentType, id: data.documentNumber,
hash: sha256(JSON.stringify(data)) hex`. -/
structure DSVerificationData where
  docType : String
  id : String
  hash : String
deriving DecidableEq, Repr

/-- The field names of the `verificationData` object literal in
`DocumentService.generateVerificationQR` (source lines 285-291). -/
def dsVerificationQRFields : List String := ["docType", "id", "hash"]

def generateVerificationQRData (data : DocData) : DSVerificationData :=
  { docType := data.documentType
    id := data.documentNumber
    hash := sha256Hex (dataJson data) }

/-- Injective byte encoding of a string (length-prefixed), used to model
serialized buffers. -/
def encStr (s : String) : Bytes :=
  s.length :: s.data.map Char.toNat

/-- Injective byte encoding of a byte string (length-prefixed). -/
def encBytes (b : Bytes) : Bytes :=
  b.length :: b

/-- `QRCode.toBuffer(JSON.stringify(verificationData))`: the QR library encodes
its input string; modelled as an injective byte rendering of the payload. -/
def generateVerificationQR (data : DocData) : Bytes :=
  encStr (generateVerificationQRData data).docType ++
    encStr (generateVerificationQRData data).id ++
    encStr (generateVerificationQRData data).hash

/-- Model of `Buffer.from(JSON.stringify(biometrics))`. -/
def bioJson (bio : Bytes) : Bytes :=
  bio.length :: bio

/-- `DocumentService.addBiometricData`: the biometric blob is encrypted with
`crypto.privateEncrypt(serviceConfig.documents.pki.privateKey, ...)` — the
same PKI pair whose public half wraps the envelope key in `wrapWithSecurity` —
and attached to the PDF.  Returns the attached encrypted blob. -/
def addBiometricData (pkiPrivateKey : Nat) (biometrics : Bytes) : Bytes :=
  privateEncrypt pkiPrivateKey (bioJson biometrics)

/-- The `metadata` object literal built inside `wrapWithSecurity` (source
lines 336-340); note it is part of the encrypted payload, not of the returned
envelope. -/
structure DSMetadata where
  timestamp : Nat
  issuer : String
  verificationEndpoint : String
deriving DecidableEq, Repr

/-- The field names of that `metadata` object literal. -/
def dsMetadataFields : List String := ["timestamp", "issuer", "verificationEndpoint"]

/-- The argument object of `wrapWithSecurity`
(`pdf / signature / qrCode / securityFeatures`, source lines 223-228). -/
structure DSWrapInput where
  pdf : Bytes
  signature : Bytes
  qrCode : Bytes
  securityFeatures : DSFeatures
deriving DecidableEq, Repr

/-- Model of `JSON.stringify(wrapped)` as bytes: an injective length-prefixed
serialization of every field of the `wrapped` object (document, signature,
qrCode, the four security features, and the metadata). -/
def encodeWrapped (w : DSWrapInput) (m : DSMetadata) : Bytes :=
  encBytes w.pdf ++ encBytes w.signature ++ encBytes w.qrCode ++
    encBytes w.securityFeatures.hologram ++ encStr w.securityFeatures.microprint ++
    encBytes w.securityFeatures.uvFeatures ++ encBytes w.securityFeatures.securityThread ++
    (m.timestamp :: (encStr m.issuer ++ encStr m.verificationEndpoint))

/-- The object returned by `wrapWithSecurity`
(`return (package: encrypted, key: crypto.publicEncrypt(...), iv)`,
source lines 358-365). -/
structure SealedPackage where
  package : Bytes
  key : Bytes
  iv : Bytes
deriving DecidableEq, Repr

/-- The field names of the object literal `wrapWithSecurity` returns. -/
def sealedPackageFields : List String := ["package", "key", "iv"]

/-- `DocumentService.wrapWithSecurity`.  `keySeed`/`ivSeed` are the explicit
seeds of the `crypto.randomBytes(32)` and `crypto.randomBytes(16)` draws; `now`
is `Date.now()`.  Note: the source NEVER calls `cipher.getAuthTag()` — the GCM
authentication tag is discarded and is not part of the returned package. -/
def wrapWithSecurity (pkiPublicKey : Nat) (doc : DSWrapInput) (keySeed ivSeed now : Nat) :
    SealedPackage :=
  let metadata : DSMetadata :=
    { timestamp := now
      issuer := "DHA Digital Services"
      verificationEndpoint := "/api/verify" }
  let encryptionKey := randomBytes 32 keySeed
  let iv := randomBytes 16 ivSeed
  { package := gcmEncrypt encryptionKey iv (encodeWrapped doc metadata)
    key := publicEncrypt pkiPublicKey encryptionKey
    iv := iv }

/-- `DocumentService.generateSecureDocument`.  `nprVerified` is the result of
the external DHA NPR lookup (`this.govServices.dha.get`), `pdfBytes` the
`pdf-lib` rendering of the page (external library; the drawn page content and
the biometric attachment live inside these bytes).  The signature is produced
over `JSON.stringify(data)` before wrapping. -/
def generateSecureDocument (pkiPublicKey : Nat) (data : DocData) (nprVerified : Bool)
    (pdfBytes : Bytes) (hologramSeed uvSeed threadSeed keySeed ivSeed now : Nat) :
    Except String SealedPackage :=
  if !nprVerified then .error "Identity verification failed"
  else
    let securityFeatures := addSecurityFeatures data hologramSeed uvSeed threadSeed now
    let qrCode := generateVerificationQR data
    let signature := securitySign (dataJson data)
    .ok (wrapWithSecurity pkiPublicKey
      { pdf := pdfBytes, signature := signature, qrCode := qrCode
        securityFeatures := securityFeatures }
      keySeed ivSeed now)

/-- The result object of `verifyDocument`
(`verified / document / metadata` on success, `verified / error` on failure). -/
structure VerifyResult where
  verified : Bool
  document : Option Bytes
  metadata : Option DSMetadata
  error : Option String
deriving DecidableEq, Repr

/-- The uniform failure result produced by the `catch` block of
`verifyDocument`: one fixed error string, no document, no metadata, no
internal reason. -/
def verificationFailed : VerifyResult :=
  { verified := false, document := none, metadata := none
    error := some "Document verification failed" }

/-- Decode one length-prefixed field. -/
def decBytes : Bytes → Option (Bytes × Bytes)
  | [] => none
  | n :: rest => if n ≤ rest.length then some (rest.take n, rest.drop n) else none

/-- Model of `JSON.parse` on the decrypted blob: the partial inverse of
`encodeWrapped`, returning the document bytes, the signature and the metadata
(the fields `verifyDocument` goes on to use), or `none` on malformed input. -/
def decodeWrapped (b : Bytes) : Option (Bytes × Bytes × DSMetadata) :=
  match decBytes b with
  | none => none
  | some (pdf, r1) =>
    match decBytes r1 with
    | none => none
    | some (sig, r2) =>
      match decBytes r2 with
      | none => none
      | some (_qr, r3) =>
        match decBytes r3 with
        | none => none
        | some (_holo, r4) =>
          match decBytes r4 with
          | none => none
          | some (_micro, r5) =>
            match decBytes r5 with
            | none => none
            | some (_uv, r6) =>
              match decBytes r6 with
              | none => none
              | some (_thread, r7) =>
                match r7 with
                | [] => none
                | ts :: r8 =>
                  match decBytes r8 with
                  | none => none
                  | some (issuerBytes, r9) =>
                    match decBytes r9 with
                    | none => none
                    | some (endpointBytes, r10) =>
                      if r10 = [] then
                        some (pdf, sig,
                          { timestamp := ts
                            issuer := String.mk (issuerBytes.map Char.ofNat)
                            verificationEndpoint := String.mk (endpointBytes.map Char.ofNat) })
                      else none

/-- `DocumentService.verifyDocument`.  Faithful points: the `try`/`catch`
folds every internal failure (key unwrap, decryption, parse, signature) into
the single `verificationFailed` value; the source never calls
`decipher.setAuthTag`, so the model passes `none` as the tag and
`decipher.final()` fails for every input; on the (unreachable) success path
the signature is checked against `JSON.stringify(parsedDecrypted.document)` —
the PDF bytes, not the originally signed `data`. -/
def verifyDocument (pkiPrivateKey : Nat) (encryptedDoc : SealedPackage) : VerifyResult :=
  match privateDecrypt pkiPrivateKey encryptedDoc.key with
  | none => verificationFailed
  | some decryptionKey =>
    match gcmDecrypt decryptionKey encryptedDoc.iv encryptedDoc.package none with
    | none => verificationFailed
    | some decrypted =>
      match decodeWrapped decrypted with
      | none => verificationFailed
      | some (document, signature, metadata) =>
        if securityVerify (toString document) signature then
          { verified := true, document := some document
            metadata := some metadata, error := none }
        else verificationFailed

end DocumentService

namespace EnhancedDocumentService

/-- The `DocumentSecurityConfig` interface (source lines 437-446). -/
structure DocumentSecurityConfig where
  watermark : Bool
  hologram : Bool
  microprint : Bool
  uvFeatures : Bool
  rfidChip : Bool
  biometricData : Bool
  quantumEncryption : Bool
  blockchainVerification : Bool
deriving DecidableEq, Repr

/-- The instance field `private securityConfig` of `EnhancedDocumentService`:
a fixed constant with every flag set to `true` (source lines 450-459). -/
def securityConfig : DocumentSecurityConfig :=
  { watermark := true
    hologram := true
    microprint := true
    uvFeatures := true
    rfidChip := true
    biometricData := true
    quantumEncryption := true
    blockchainVerification := true }

/-- The `SecurityFeature` interface (source lines 431-435). -/
structure SecurityFeature where
  type : String
  data : String
  verificationMethod : String
deriving DecidableEq, Repr

/-- `addDynamicWatermark` (the `doc` argument is unused by the body). -/
def addDynamicWatermark : SecurityFeature :=
  { type := "watermark", data := "watermark_data", verificationMethod := "optical" }

/-- `addHolographicElement`. -/
def addHolographicElement : SecurityFeature :=
  { type := "hologram", data := "hologram_data", verificationMethod := "specialized_scanner" }

/-- `addMicroprinting(doc, data)`: returns the constant placeholder record;
neither `doc` nor `data` influences the payload. -/
def addMicroprinting (_data : DocData) : SecurityFeature :=
  { type := "microprint", data := "microprint_data", verificationMethod := "microscope" }

/-- `addUVFeatures`. -/
def addUVFeatures : SecurityFeature :=
  { type := "uv", data := "uv_data", verificationMethod := "uv_light" }

/-- `addRFIDData(doc, data)`. -/
def addRFIDData (_data : DocData) : SecurityFeature :=
  { type := "rfid", data := "rfid_data", verificationMethod := "rfid_scanner" }

/-- `EnhancedDocumentService.addAdvancedSecurity`: pushes one feature per
enabled flag, in source order; the `cfg` argument is the `this.securityConfig`
instance field passed by explicit state passing.  Only the five flags below are
consulted; `biometricData`, `quantumEncryption` and `blockchainVerification`
never contribute an entry to this list. -/
def addAdvancedSecurity (cfg : DocumentSecurityConfig) (data : DocData) : List SecurityFeature :=
  (if cfg.watermark then [addDynamicWatermark] else []) ++
    (if cfg.hologram then [addHolographicElement] else []) ++
    (if cfg.microprint then [addMicroprinting data] else []) ++
    (if cfg.uvFeatures then [addUVFeatures] else []) ++
    (if cfg.rfidChip then [addRFIDData data] else [])

/-- The object returned by the `storeOnBlockchain` stub. -/
structure StoreResult where
  stored : Bool
  timestamp : Nat
  reference : String
deriving DecidableEq, Repr

/-- `EnhancedDocumentService.storeOnBlockchain`: a fully local stub — it
contacts no external backend, cannot be unavailable, and always succeeds with
the reference string `blockchain_ref_` followed by the hash. -/
def storeOnBlockchain (hash : String) (now : Nat) : StoreResult :=
  { stored := true, timestamp := now, reference := "blockchain_ref_" ++ hash }

/-- `createDocumentHash(doc, data)`: hashes `JSON.stringify(data)` (the `doc`
argument is unused by the body). -/
def createDocumentHash (data : DocData) : String :=
  sha256Hex (dataJson data)

/-- The record returned by `addBlockchainVerification`.  The `reference` slot
is nullable in JavaScript, hence the `Option`; the stub always fills it. -/
structure BlockchainVerification where
  hash : String
  reference : Option StoreResult
  timestamp : Nat
deriving DecidableEq, Repr

/-- `EnhancedDocumentService.addBlockchainVerification`. -/
def addBlockchainVerification (data : DocData) (now : Nat) : BlockchainVerification :=
  { hash := createDocumentHash data
    reference := some (storeOnBlockchain (createDocumentHash data) now)
    timestamp := now }

/-- The QR verification payload of `EnhancedDocumentService.generateVerificationQR`:
`documentId / blockchainRef / issueDate` (source lines 647-651).  `issueDate`
is `new Date().toISOString()`, modelled by the clock value. -/
structure EnhancedVerificationData where
  documentId : String
  blockchainRef : Option StoreResult
  issueDate : Nat
deriving DecidableEq, Repr

/-- The field names of that QR payload object literal. -/
def enhancedQRFields : List String := ["documentId", "blockchainRef", "issueDate"]

def generateVerificationQRData (data : DocData) (bv : BlockchainVerification) (now : Nat) :
    EnhancedVerificationData :=
  { documentId := data.documentNumber
    blockchainRef := bv.reference
    issueDate := now }

/-- The PDF document, modelled by its list of attachments (the only part of
the `pdf-lib` state this service observably modifies: `doc.attach`). -/
structure PDFDoc where
  attachments : List Bytes
deriving DecidableEq, Repr

/-- Modelled from the spec: `addBaseSecurityFeatures` is called by
`createBaseDocument` but its definition is missing from the source under
`src/`.  Per spec sections 2 and 4.1 it draws base visual features onto the
page; it does not alter the document's attachments, so it is modelled as the
identity on the document state. -/
def addBaseSecurityFeatures (doc : PDFDoc) : PDFDoc := doc

/-- `createBaseDocument`: `PDFDocument.create()` + `addPage` +
`addBaseSecurityFeatures` (the page itself is external `pdf-lib` state). -/
def createBaseDocument (_type : String) : PDFDoc :=
  addBaseSecurityFeatures { attachments := [] }

/-- `EnhancedDocumentService.encryptBiometricData`: AES-256-GCM under the
biometric master key (`securityKeys.encryption.masterKey`, i.e.
`serviceConfig.security.biometric`), with an explicit IV seed for the
`crypto.randomBytes(16)` draw; output is IV, then auth tag, then ciphertext. -/
def encryptBiometricData (masterKey : Bytes) (ivSeed : Nat) (biometrics : Bytes) : Bytes :=
  let iv := randomBytes 16 ivSeed
  let encrypted := gcmEncrypt masterKey iv (DocumentService.bioJson biometrics)
  iv ++ gcmTag masterKey iv encrypted ++ encrypted

/-- `addBiometricFeatures`: encrypts the biometrics under the master key,
attaches the blob to the PDF, and returns the biometric feature record. -/
def addBiometricFeatures (doc : PDFDoc) (biometrics : Bytes) (masterKey : Bytes) (ivSeed : Nat) :
    PDFDoc × SecurityFeature :=
  let encrypted := encryptBiometricData masterKey ivSeed biometrics
  ({ attachments := doc.attachments ++ [encrypted] },
    { type := "biometric", data := "biometric_reference", verificationMethod := "biometric_scanner" })

/-- The `metadata` object literal of `finalizeDocument` (source lines 616-620);
`issuedAt` is `new Date().toISOString()`, modelled by the clock value. -/
structure EMetadata where
  issuedAt : Nat
  issuer : String
  documentType : String
deriving DecidableEq, Repr

/-- The field names of that `metadata` object literal — note there is no
anchor-pending flag among them. -/
def enhancedMetadataFields : List String := ["issuedAt", "issuer", "documentType"]

/-- The `verification` part of the finalized document.  Faithful point: the
source stores `securityFeatures: this.securityConfig` — the CONFIG object, not
the feature list built by `addAdvancedSecurity` (whose return value
`generateSecureDocument` discards). -/
structure Verification where
  blockchain : BlockchainVerification
  qrCode : EnhancedVerificationData
  securityFeatures : DocumentSecurityConfig
deriving DecidableEq, Repr

/-- The finalized document.  `quantumProtected` is the extra flag spread in by
`applyQuantumEncryption`; it is absent (modelled `false`) until that stub
runs. -/
structure FinalDoc where
  document : List Bytes
  verification : Verification
  metadata : EMetadata
  quantumProtected : Bool
deriving DecidableEq, Repr

/-- `applyQuantumEncryption`: a placeholder that spreads the document and adds
`quantumProtected: true`; no encryption happens. -/
def applyQuantumEncryption (doc : FinalDoc) : FinalDoc :=
  { doc with quantumProtected := true }

/-- `EnhancedDocumentService.finalizeDocument`. -/
def finalizeDocument (cfg : DocumentSecurityConfig) (doc : PDFDoc) (data : DocData)
    (bv : BlockchainVerification) (now : Nat) : FinalDoc :=
  let finalDoc : FinalDoc :=
    { document := doc.attachments
      verification :=
        { blockchain := bv
          qrCode := generateVerificationQRData data bv now
          securityFeatures := cfg }
      metadata := { issuedAt := now, issuer := "DHA-RSA", documentType := data.documentType }
      quantumProtected := false }
  if cfg.quantumEncryption then applyQuantumEncryption finalDoc else finalDoc

/-- `verifyInputData`: rejects a missing (falsy, i.e. empty) `idNumber` or
`documentType`. -/
def verifyInputData (data : DocData) : Except String Unit :=
  if data.idNumber = "" then .error "Invalid ID number"
  else if data.documentType = "" then .error "Invalid document type"
  else .ok ()

/-- `EnhancedDocumentService.generateSecureDocument`.  The `cfg` argument is
the `this.securityConfig` instance field (explicit state passing); `masterKey`
and `bioIvSeed` feed `encryptBiometricData`; `now` is the clock.  Faithful
points: the feature list returned by `addAdvancedSecurity` is discarded
(source line 470 ignores the return value); the biometric step is guarded by
`data.biometrics`, not by `cfg.biometricData`; `addBlockchainVerification` is
always called, regardless of `cfg.blockchainVerification`. -/
def generateSecureDocument (cfg : DocumentSecurityConfig) (type : String) (data : DocData)
    (masterKey : Bytes) (bioIvSeed now : Nat) : Except String FinalDoc :=
  match verifyInputData data with
  | .error e => .error e
  | .ok _ =>
    let doc := createBaseDocument type
    let _securityFeatures := addAdvancedSecurity cfg data
    let doc :=
      match data.biometrics with
      | some bio => (addBiometricFeatures doc bio masterKey bioIvSeed).1
      | none => doc
    let bv := addBlockchainVerification data now
    .ok (finalizeDocument cfg doc data bv now)

/-- The exported `enhancedDocumentService` instance: its
`generateSecureDocument` closes over the constant `securityConfig` field, so a
caller supplies only the document type and the data — no configuration
parameter exists in its signature. -/
def instanceGenerate (type : String) (data : DocData) (masterKey : Bytes)
    (bioIvSeed now : Nat) : Except String FinalDoc :=
  generateSecureDocument securityConfig type data masterKey bioIvSeed now

end EnhancedDocumentService

/-! ## Sample inputs (spec section 8 example scenario) -/

/-- The example request of spec section 8: a South African ID card request
without biometrics. -/
def sampleData : DocData :=
  { idNumber := "8001015009087"
    documentType := "id_card"
    documentNumber := "ZA5509087"
    biometrics := none }

/-- The same request with a biometrics blob attached. -/
def sampleBioData : DocData :=
  { sampleData with biometrics := some [1, 2, 3] }

/-! ## Shared helper lemmas -/

/-- Every call of `verifyDocument` fails: `wrapWithSecurity` discards the GCM
authentication tag (it never calls `cipher.getAuthTag()`), `verifyDocument`
never calls `decipher.setAuthTag`, so `decipher.final()` fails closed on every
input and the catch-all returns the uniform failure record. -/
theorem verifyDocument_always_rejects (pki : Nat) (e : DocumentService.SealedPackage) :
    DocumentService.verifyDocument pki e = DocumentService.verificationFailed := by
  unfold DocumentService.verifyDocument
  rcases h : privateDecrypt pki e.key with _ | k <;> simp [h, gcmDecrypt]

/-! ## Claim theorems -/

/-- Claim C1 (code bug): the round trip FAILS for every valid request, key
pair, randomness and clock — opening the envelope produced by
`generateSecureDocument` under the matching private key returns the uniform
failure result instead of the document, because the GCM authentication tag is
discarded at seal time and never set at open time, so decryption always fails
closed. -/
theorem C1_roundtrip_open_always_fails (pki : Nat) (data : DocData) (pdfBytes : Bytes)
    (hologramSeed uvSeed threadSeed keySeed ivSeed now : Nat) :
    (DocumentService.generateSecureDocument pki data true pdfBytes
        hologramSeed uvSeed threadSeed keySeed ivSeed now).map
        (DocumentService.verifyDocument pki)
      = Except.ok DocumentService.verificationFailed := by
  simp [DocumentService.generateSecureDocument, Except.map, verifyDocument_always_rejects]

/-- Claim C2 (confirmed, degenerately): replacing any single byte of the
ciphertext (`package`) or of the wrapped key of a sealed envelope makes
`verifyDocument` report failure, never success, and release no plaintext.
(The sealed envelope carries no authTag field at all, so the claim's authTag
case is vacuous; in fact `verifyDocument` rejects every envelope, tampered or
not, since no auth tag is ever set.) -/
theorem C2_single_byte_tamper_rejected (pki : Nat) (e : DocumentService.SealedPackage)
    (i v : Nat) :
    ((DocumentService.verifyDocument pki { e with package := e.package.set i v }).verified = false
      ∧ (DocumentService.verifyDocument pki { e with package := e.package.set i v }).document = none)
  ∧ ((DocumentService.verifyDocument pki { e with key := e.key.set i v }).verified = false
      ∧ (DocumentService.verifyDocument pki { e with key := e.key.set i v }).document = none) := by
  simp [verifyDocument_always_rejects, DocumentService.verificationFailed]

/-- Claim C3 counterexample: the object returned by `wrapWithSecurity` has
exactly the fields package, key and iv — it contains neither an authTag field
nor a plaintext metadata field. -/
theorem C3_counterexample_no_authTag_no_metadata :
    "authTag" ∉ DocumentService.sealedPackageFields
  ∧ "metadata" ∉ DocumentService.sealedPackageFields
  ∧ DocumentService.sealedPackageFields = ["package", "key", "iv"] := by
  refine ⟨by decide, by decide, rfl⟩

/-- Claim C3 amended: `wrapWithSecurity` returns exactly (package, key, iv):
the AES-256-GCM ciphertext of the serialized wrapped object, the fresh 256-bit
symmetric key wrapped under the PKI public key, and the fresh 16-byte IV.  The
GCM authentication tag is discarded, and the metadata (timestamp, issuer,
verificationEndpoint) sits inside the encrypted package, not alongside it in
plaintext. -/
theorem C3_amended_sealed_package_shape (pki : Nat) (w : DocumentService.DSWrapInput)
    (keySeed ivSeed now : Nat) :
    (DocumentService.wrapWithSecurity pki w keySeed ivSeed now).package
        = gcmEncrypt (randomBytes 32 keySeed) (randomBytes 16 ivSeed)
            (DocumentService.encodeWrapped w
              { timestamp := now
                issuer := "DHA Digital Services"
                verificationEndpoint := "/api/verify" })
  ∧ (DocumentService.wrapWithSecurity pki w keySeed ivSeed now).key
        = publicEncrypt pki (randomBytes 32 keySeed)
  ∧ (DocumentService.wrapWithSecurity pki w keySeed ivSeed now).iv = randomBytes 16 ivSeed
  ∧ (DocumentService.wrapWithSecurity pki w keySeed ivSeed now).iv.length = 16
  ∧ (randomBytes 32 keySeed).length = 32
  ∧ "metadata" ∉ DocumentService.sealedPackageFields := by
  refine ⟨rfl, rfl, rfl, ?_, ?_, by decide⟩ <;>
    simp [DocumentService.wrapWithSecurity, randomBytes]

/-- Claim C4 (confirmed): whenever verification fails, the caller-visible
result is the single uniform record — verified false, one fixed error string,
no document, no metadata — so the distinct internal failure reason is never
exposed in the returned value. -/
theorem C4_failure_uniform (pki : Nat) (e : DocumentService.SealedPackage)
    (_h : (DocumentService.verifyDocument pki e).verified = false) :
    DocumentService.verifyDocument pki e
      = { verified := false, document := none, metadata := none
          error := some "Document verification failed" } :=
  verifyDocument_always_rejects pki e

/-- Witness for C4 at a concrete envelope. -/
theorem C4_failure_uniform_witness :
    (DocumentService.verifyDocument 1 { package := [], key := [], iv := [] }).verified = false
  ∧ DocumentService.verifyDocument 1 { package := [], key := [], iv := [] }
      = { verified := false, document := none, metadata := none
          error := some "Document verification failed" } :=
  ⟨rfl, C4_failure_uniform 1 { package := [], key := [], iv := [] } rfl⟩

/-- Claim C5 (code bug): biometric confidentiality is NOT isolated from the
envelope key custody.  `addBiometricData` encrypts the biometrics with
`privateEncrypt` under the very PKI pair whose public half wraps the envelope
key, so the same pair identifier both unwraps the envelope's symmetric key and
recovers the biometric plaintext — indeed, the pair's PUBLIC half alone
decrypts the biometrics.  No separate master key is involved on this path. -/
theorem C5_biometric_key_not_isolated (pki : Nat) (biometrics : Bytes)
    (w : DocumentService.DSWrapInput) (keySeed ivSeed now : Nat) :
    publicDecrypt pki (DocumentService.addBiometricData pki biometrics)
        = some (DocumentService.bioJson biometrics)
  ∧ privateDecrypt pki (DocumentService.wrapWithSecurity pki w keySeed ivSeed now).key
        = some (randomBytes 32 keySeed) := by
  constructor <;>
    simp [DocumentService.addBiometricData, DocumentService.wrapWithSecurity,
      publicDecrypt, privateDecrypt, privateEncrypt, publicEncrypt]

/-- Claim C6 counterexample: at the example request, the anchor reference is a
concrete non-null stub value — not null — and the envelope metadata fields
(issuedAt, issuer, documentType) contain no anchor-pending flag, so the
degraded anchor-pending outcome the claim describes never occurs. -/
theorem C6_counterexample_anchor_not_pending :
    (EnhancedDocumentService.addBlockchainVerification sampleData 0).reference
        = some (EnhancedDocumentService.storeOnBlockchain
            (EnhancedDocumentService.createDocumentHash sampleData) 0)
  ∧ (EnhancedDocumentService.storeOnBlockchain
        (EnhancedDocumentService.createDocumentHash sampleData) 0).reference
        = "blockchain_ref_" ++ EnhancedDocumentService.createDocumentHash sampleData
  ∧ (EnhancedDocumentService.addBlockchainVerification sampleData 0).reference ≠ none
  ∧ "anchorPending" ∉ EnhancedDocumentService.enhancedMetadataFields := by
  refine ⟨rfl, rfl, by simp [EnhancedDocumentService.addBlockchainVerification], by decide⟩

/-- Claim C6 amended: the anchoring step is a fully local stub that cannot be
unavailable — `storeOnBlockchain` always succeeds with the non-null reference
`blockchain_ref_` ++ hash and a locally recorded timestamp, sealing never
blocks or fails on anchoring, and the envelope metadata (issuedAt, issuer,
documentType) carries no anchor-pending flag. -/
theorem C6_amended_anchoring_local_total (type : String) (data : DocData)
    (masterKey : Bytes) (bioIvSeed now : Nat)
    (h1 : data.idNumber ≠ "") (h2 : data.documentType ≠ "") :
    (EnhancedDocumentService.addBlockchainVerification data now).reference
        = some (EnhancedDocumentService.storeOnBlockchain
            (EnhancedDocumentService.createDocumentHash data) now)
  ∧ (EnhancedDocumentService.storeOnBlockchain
        (EnhancedDocumentService.createDocumentHash data) now).stored = true
  ∧ (EnhancedDocumentService.storeOnBlockchain
        (EnhancedDocumentService.createDocumentHash data) now).reference
        = "blockchain_ref_" ++ EnhancedDocumentService.createDocumentHash data
  ∧ "anchorPending" ∉ EnhancedDocumentService.enhancedMetadataFields
  ∧ ∃ d, EnhancedDocumentService.instanceGenerate type data masterKey bioIvSeed now
        = Except.ok d
      ∧ d.metadata = { issuedAt := now, issuer := "DHA-RSA", documentType := data.documentType } := by
  have hv : EnhancedDocumentService.verifyInputData data = Except.ok () := by
    unfold EnhancedDocumentService.verifyInputData
    rw [if_neg h1, if_neg h2]
  refine ⟨rfl, rfl, rfl, by decide, ?_⟩
  unfold EnhancedDocumentService.instanceGenerate EnhancedDocumentService.generateSecureDocument
  rw [hv]
  cases hb : data.biometrics with
  | none =>
      exact ⟨_, rfl, by
        simp [EnhancedDocumentService.finalizeDocument,
          EnhancedDocumentService.applyQuantumEncryption,
          EnhancedDocumentService.securityConfig]⟩
  | some bio =>
      exact ⟨_, rfl, by
        simp [EnhancedDocumentService.finalizeDocument,
          EnhancedDocumentService.applyQuantumEncryption,
          EnhancedDocumentService.securityConfig]⟩

/-- Witness for C6 at the example request. -/
theorem C6_amended_anchoring_local_total_witness :
    (EnhancedDocumentService.addBlockchainVerification sampleData 7).reference
        = some (EnhancedDocumentService.storeOnBlockchain
            (EnhancedDocumentService.createDocumentHash sampleData) 7)
  ∧ (EnhancedDocumentService.storeOnBlockchain
        (EnhancedDocumentService.createDocumentHash sampleData) 7).stored = true
  ∧ (EnhancedDocumentService.storeOnBlockchain
        (EnhancedDocumentService.createDocumentHash sampleData) 7).reference
        = "blockchain_ref_" ++ EnhancedDocumentService.createDocumentHash sampleData
  ∧ "anchorPending" ∉ EnhancedDocumentService.enhancedMetadataFields
  ∧ ∃ d, EnhancedDocumentService.instanceGenerate "id_card" sampleData [] 0 7
        = Except.ok d
      ∧ d.metadata = { issuedAt := 7, issuer := "DHA-RSA", documentType := sampleData.documentType } :=
  C6_amended_anchoring_local_total "id_card" sampleData [] 0 7 (by decide) (by decide)

/-- A configuration enabling only the biometric feature kind, used to refute
claim C7 as stated. -/
def bioOnlyConfig : EnhancedDocumentService.DocumentSecurityConfig :=
  { watermark := false
    hologram := false
    microprint := false
    uvFeatures := false
    rfidChip := false
    biometricData := true
    quantumEncryption := false
    blockchainVerification := false }

/-- Claim C7 counterexample: with only the `biometricData` flag enabled, the
feature generator emits NO feature at all — in particular no feature of the
enabled biometric kind — so it is not true that a feature appears for each
enabled kind of the config. -/
theorem C7_counterexample_enabled_kind_missing :
    bioOnlyConfig.biometricData = true
  ∧ EnhancedDocumentService.addAdvancedSecurity bioOnlyConfig sampleData = []
  ∧ ∀ f ∈ EnhancedDocumentService.addAdvancedSecurity bioOnlyConfig sampleData,
      f.type ≠ "biometric" := by
  refine ⟨rfl, rfl, by decide⟩

/-- Claim C7 amended: for the five feature kinds `addAdvancedSecurity`
controls (watermark, hologram, microprint, uv, rfid), a feature of that kind
appears in the output exactly when its flag is enabled — a disabled kind is
entirely absent, never an empty placeholder — and no other kind ever appears
in this output (the `biometricData`, `quantumEncryption` and
`blockchainVerification` flags contribute no entry). -/
theorem C7_amended_features_iff_flags (cfg : EnhancedDocumentService.DocumentSecurityConfig)
    (data : DocData) :
    ((∃ f ∈ EnhancedDocumentService.addAdvancedSecurity cfg data, f.type = "watermark")
        ↔ cfg.watermark = true)
  ∧ ((∃ f ∈ EnhancedDocumentService.addAdvancedSecurity cfg data, f.type = "hologram")
        ↔ cfg.hologram = true)
  ∧ ((∃ f ∈ EnhancedDocumentService.addAdvancedSecurity cfg data, f.type = "microprint")
        ↔ cfg.microprint = true)
  ∧ ((∃ f ∈ EnhancedDocumentService.addAdvancedSecurity cfg data, f.type = "uv")
        ↔ cfg.uvFeatures = true)
  ∧ ((∃ f ∈ EnhancedDocumentService.addAdvancedSecurity cfg data, f.type = "rfid")
        ↔ cfg.rfidChip = true)
  ∧ ∀ f ∈ EnhancedDocumentService.addAdvancedSecurity cfg data,
      f.type = "watermark" ∨ f.type = "hologram" ∨ f.type = "microprint"
        ∨ f.type = "uv" ∨ f.type = "rfid" := by
  obtain ⟨w, hg, mp, uv, rf, bio, qe, bv⟩ := cfg
  cases w <;> cases hg <;> cases mp <;> cases uv <;> cases rf <;>
    simp [EnhancedDocumentService.addAdvancedSecurity,
      EnhancedDocumentService.addDynamicWatermark,
      EnhancedDocumentService.addHolographicElement,
      EnhancedDocumentService.addMicroprinting,
      EnhancedDocumentService.addUVFeatures,
      EnhancedDocumentService.addRFIDData]

/-- Claim C8 (code bug): `EnhancedDocumentService.addMicroprinting` returns
the constant placeholder payload for every document and clock, so any two
documents — including two for the same subject at different times — have
identical (colliding) microprint payloads.  Only
`DocumentService.generateMicroprint` builds a text that changes with the
timestamp, as the last conjunct shows at two concrete clocks. -/
theorem C8_microprint_placeholder_collides (d1 d2 : DocData) :
    EnhancedDocumentService.addMicroprinting d1 = EnhancedDocumentService.addMicroprinting d2
  ∧ (EnhancedDocumentService.addMicroprinting d1).data = "microprint_data"
  ∧ DocumentService.generateMicroprintText sampleData 5
      ≠ DocumentService.generateMicroprintText sampleData 7 := by
  refine ⟨rfl, rfl, by decide⟩

/-- Claim C9 counterexample: the QR payload carried in the sealed output of
the enhanced pipeline has the fields documentId, blockchainRef and issueDate —
it has neither docType, nor id, nor hash — and the DocumentService seal output
exposes no qrCode field at all (its docType/id/hash QR is encrypted inside the
package). -/
theorem C9_counterexample_qr_fields :
    "hash" ∉ EnhancedDocumentService.enhancedQRFields
  ∧ "docType" ∉ EnhancedDocumentService.enhancedQRFields
  ∧ "id" ∉ EnhancedDocumentService.enhancedQRFields
  ∧ "qrCode" ∉ DocumentService.sealedPackageFields := by
  refine ⟨by decide, by decide, by decide, by decide⟩

/-- Claim C9 amended: `DocumentService.generateVerificationQR` does encode the
JSON object (docType, id, hash), with hash the hex digest of the same
canonical serialization `JSON.stringify(data)` that the blockchain anchor
hashes — but that QR is sealed inside the encrypted package rather than
returned alongside it, while the enhanced pipeline's plaintext QR payload has
the fields documentId, blockchainRef and issueDate instead. -/
theorem C9_amended_qr_shape (data : DocData) :
    (DocumentService.generateVerificationQRData data).docType = data.documentType
  ∧ (DocumentService.generateVerificationQRData data).id = data.documentNumber
  ∧ (DocumentService.generateVerificationQRData data).hash = sha256Hex (dataJson data)
  ∧ (DocumentService.generateVerificationQRData data).hash
      = EnhancedDocumentService.createDocumentHash data
  ∧ DocumentService.dsVerificationQRFields = ["docType", "id", "hash"]
  ∧ "qrCode" ∉ DocumentService.sealedPackageFields
  ∧ EnhancedDocumentService.enhancedQRFields = ["documentId", "blockchainRef", "issueDate"] :=
  ⟨rfl, rfl, rfl, rfl, rfl, by decide, rfl⟩

/-- Claim C10 counterexample: the config is all-true (biometricData included),
yet the document generated for the example request without biometrics carries
no attachment — no biometric feature kind is present — so a caller does
effectively disable the biometric feature by omitting `data.biometrics`. -/
theorem C10_counterexample_missing_biometric_feature :
    EnhancedDocumentService.securityConfig.biometricData = true
  ∧ (EnhancedDocumentService.instanceGenerate "id_card" sampleData [] 0 0).map
      (fun d => d.document) = Except.ok [] := by
  refine ⟨rfl, rfl⟩

/-- Claim C10 amended: the security configuration is the fixed all-true
constant and the exported service's `generateSecureDocument` takes only the
document type and the data, so the five generator-controlled feature kinds are
always produced and no caller can disable them; the finalized document embeds
the config itself, is always quantum-flagged and blockchain-anchored — but the
biometric attachment is present exactly when the request carries biometrics,
so a request without biometrics yields a document without that kind. -/
theorem C10_amended_config_constant_all_features (type : String) (data : DocData)
    (masterKey : Bytes) (bioIvSeed now : Nat)
    (h1 : data.idNumber ≠ "") (h2 : data.documentType ≠ "") :
    EnhancedDocumentService.securityConfig =
      { watermark := true, hologram := true, microprint := true, uvFeatures := true
        rfidChip := true, biometricData := true, quantumEncryption := true
        blockchainVerification := true }
  ∧ (EnhancedDocumentService.addAdvancedSecurity EnhancedDocumentService.securityConfig data).map
      (fun f => f.type) = ["watermark", "hologram", "microprint", "uv", "rfid"]
  ∧ ∃ d, EnhancedDocumentService.instanceGenerate type data masterKey bioIvSeed now = Except.ok d
      ∧ d.verification.securityFeatures = EnhancedDocumentService.securityConfig
      ∧ d.quantumProtected = true
      ∧ d.document.length = (if data.biometrics.isSome then 1 else 0) := by
  have hv : EnhancedDocumentService.verifyInputData data = Except.ok () := by
    unfold EnhancedDocumentService.verifyInputData
    rw [if_neg h1, if_neg h2]
  refine ⟨rfl, rfl, ?_⟩
  unfold EnhancedDocumentService.instanceGenerate EnhancedDocumentService.generateSecureDocument
  rw [hv]
  cases hb : data.biometrics with
  | none =>
      refine ⟨_, rfl, ?_, ?_, ?_⟩ <;>
        simp [EnhancedDocumentService.finalizeDocument,
          EnhancedDocumentService.applyQuantumEncryption,
          EnhancedDocumentService.securityConfig,
          EnhancedDocumentService.createBaseDocument,
          EnhancedDocumentService.addBaseSecurityFeatures, hb]
  | some bio =>
      refine ⟨_, rfl, ?_, ?_, ?_⟩ <;>
        simp [EnhancedDocumentService.finalizeDocument,
          EnhancedDocumentService.applyQuantumEncryption,
          EnhancedDocumentService.securityConfig,
          EnhancedDocumentService.createBaseDocument,
          EnhancedDocumentService.addBaseSecurityFeatures,
          EnhancedDocumentService.addBiometricFeatures, hb]

/-- Witness for C10 at the example request carrying a biometrics blob. -/
theorem C10_amended_config_constant_all_features_witness :
    EnhancedDocumentService.securityConfig =
      { watermark := true, hologram := true, microprint := true, uvFeatures := true
        rfidChip := true, biometricData := true, quantumEncryption := true
        blockchainVerification := true }
  ∧ (EnhancedDocumentService.addAdvancedSecurity EnhancedDocumentService.securityConfig
      sampleBioData).map (fun f => f.type)
      = ["watermark", "hologram", "microprint", "uv", "rfid"]
  ∧ ∃ d, EnhancedDocumentService.instanceGenerate "id_card" sampleBioData [] 0 3 = Except.ok d
      ∧ d.verification.securityFeatures = EnhancedDocumentService.securityConfig
      ∧ d.quantumProtected = true
      ∧ d.document.length = (if sampleBioData.biometrics.isSome then 1 else 0) :=
  C10_amended_config_constant_all_features "id_card" sampleBioData [] 0 3 (by decide) (by decide)

end DHADocs
